import Mathlib

/-!
Verification development for the TrustScholar document
confidentiality & authenticity pipeline.

The definitions below are a shallow embedding of
`backend/utils/encryption.js`, `backend/utils/encoding.js`,
`backend/routes/documents.js` and `backend/routes/encoding.js`.

Modelling conventions:
* JavaScript strings that flow through the cipher layer are modelled as
  their UTF-8 byte sequences (`Bytes := List Nat`); crypto-js converts
  strings to word arrays with `Utf8.parse` and back with `Utf8.stringify`,
  which throws on malformed UTF-8, so the string/byte boundary is modelled
  by the strict validity checker `isValidUtf8`.
* crypto-js is called with a *string* passphrase at every call site
  (`AES_SECRET` and `WordArray.random(32).toString()` are strings), so
  `CryptoJS.AES.encrypt/decrypt` run in `PasswordBasedCipher` mode: a
  random salt is drawn, the effective key/iv pair is derived from
  (passphrase, salt) by the OpenSSL KDF, and the caller-supplied `cfg.iv`
  is overwritten by the derived iv (`cfg.iv = derivedParams.iv`).  The
  serialized OpenSSL-format ciphertext string (`"Salted__" + salt + ct`,
  base64) is modelled as the structure `AESCiphertext` carrying the salt
  and the raw ciphertext bytes.
* The AES-256-CBC core keyed permutation and the OpenSSL KDF are library
  primitives (not code of this repository); they are modelled by concrete
  executable stand-ins (`coreXor`, a keyed stream xor, which is a total
  invertible permutation for every key, exactly like CBC decryption which
  never fails at the cipher layer; and `evpKDF`, a deterministic function
  of passphrase and salt).  crypto-js's `Pkcs7.unpad`, which reads the
  last byte and truncates WITHOUT validating the padding, is modelled
  exactly (`pkcs7Unpad`).
* 2048-bit RSA-OAEP (Node `crypto.publicEncrypt`/`privateDecrypt`) and
  RSA-SHA512 signatures (Node `crypto.sign`/`crypto.verify`) are modelled
  as ideal asymmetric primitives: decryption/verification succeeds exactly
  under the matching key, and structurally invalid (malformed) key or
  signature material makes the raw primitive throw, which the model
  renders as `Except.error`.
-/

namespace TrustScholar

/-- Byte strings: each element is one byte value. -/
abbrev Bytes := List Nat

/-- UTF-8 continuation byte (`10xxxxxx`). -/
def isCont (b : Nat) : Bool := 0x80 ≤ b && b ≤ 0xBF

/-- Byte at position `i`, with an out-of-range sentinel that fails every
range check below. -/
def byteAt (bs : Bytes) (i : Nat) : Nat := bs.getD i 256

/-- Length (1–4) of a well-formed UTF-8 scalar at the head of `bs`, or
`none` when the head is malformed (strict: rejects overlong forms,
surrogates `U+D800`–`U+DFFF` and code points above `U+10FFFF`). -/
def utf8HeadLen (bs : Bytes) : Option Nat :=
  let b := byteAt bs 0
  let c1 := byteAt bs 1
  let c2 := byteAt bs 2
  let c3 := byteAt bs 3
  if b ≤ 0x7F then some 1
  else if 0xC2 ≤ b && b ≤ 0xDF then
    if isCont c1 then some 2 else none
  else if b == 0xE0 then
    if (0xA0 ≤ c1 && c1 ≤ 0xBF) && isCont c2 then some 3 else none
  else if (0xE1 ≤ b && b ≤ 0xEC) || b == 0xEE || b == 0xEF then
    if isCont c1 && isCont c2 then some 3 else none
  else if b == 0xED then
    if (0x80 ≤ c1 && c1 ≤ 0x9F) && isCont c2 then some 3 else none
  else if b == 0xF0 then
    if (0x90 ≤ c1 && c1 ≤ 0xBF) && isCont c2 && isCont c3 then some 4 else none
  else if 0xF1 ≤ b && b ≤ 0xF3 then
    if isCont c1 && isCont c2 && isCont c3 then some 4 else none
  else if b == 0xF4 then
    if (0x80 ≤ c1 && c1 ≤ 0x8F) && isCont c2 && isCont c3 then some 4 else none
  else none

/-- Fuel-based validity scan; each step consumes at least one byte, so
fuel `bs.length` is always sufficient. -/
def isValidUtf8Aux : Nat → Bytes → Bool
  | _, [] => true
  | 0, _ :: _ => false
  | fuel + 1, b :: rest =>
    match utf8HeadLen (b :: rest) with
    | none => false
    | some k => isValidUtf8Aux fuel (List.drop (k - 1) rest)

/-- Strict UTF-8 validity of a byte sequence, modelling whether
crypto-js's `Utf8.stringify` succeeds or throws `Malformed UTF-8 data`. -/
def isValidUtf8 (bs : Bytes) : Bool := isValidUtf8Aux bs.length bs

/-- The UTF-8 bytes of a Lean string used as a model input (all call-site
strings in the repository are ASCII, so byte = code point). -/
def strBytes (s : String) : Bytes := s.data.map Char.toNat

/-- PKCS#7 padding to the 16-byte AES block size (crypto-js `Pkcs7.pad`). -/
def pkcs7Pad (bs : Bytes) : Bytes :=
  let n := 16 - bs.length % 16
  bs ++ List.replicate n n

/-- crypto-js `Pkcs7.unpad`: reads the LAST byte as the padding length and
truncates by that amount, with NO validation of the padding bytes; when the
claimed padding length exceeds the data, `sigBytes` goes non-positive and
stringification yields the empty string (here: `Nat` truncated subtraction
takes zero bytes). -/
def pkcs7Unpad (bs : Bytes) : Bytes :=
  bs.take (bs.length - (bs.getLast?.getD 0))

/-- Stand-in keystream for the AES-256-CBC core permutation under a derived
key/iv pair: byte `i` of the stream is the cyclic byte of the derived key
material.  Stream values are bytes of the key material. -/
def keystream (key : Bytes) (i : Nat) : Nat := key.getD (i % key.length) 0

/-- Apply the keyed stream from position `i`. -/
def coreXorAux (key : Bytes) : Nat → Bytes → Bytes
  | _, [] => []
  | i, b :: bs => (b ^^^ keystream key i) :: coreXorAux key (i + 1) bs

/-- Stand-in for the AES-256-CBC core permutation: a total, invertible
(self-inverse) keyed transformation — like CBC decryption, it never fails,
whatever the key. -/
def coreXor (key : Bytes) (bs : Bytes) : Bytes := coreXorAux key 0 bs

/-- Stand-in for crypto-js's OpenSSL `EvpKDF`: the effective key/iv material
is a deterministic function of the passphrase and the salt (and of nothing
else — in particular not of the caller-supplied `cfg.iv`). -/
def evpKDF (password salt : Bytes) : Bytes := password ++ salt

/-- Model of the OpenSSL-format ciphertext string produced by
`encrypted.toString()`: carries the embedded salt and the ciphertext. -/
structure AESCiphertext where
  salt : Bytes
  ct : Bytes
deriving DecidableEq

/-- The `{ encryptedData, iv }` object returned by `encryptAES`. -/
structure AESEncrypted where
  encryptedData : AESCiphertext
  iv : Bytes
deriving DecidableEq

/-- `encryptAES` (encryption.js lines 25–44).  The function draws a random
16-byte iv (`ivRand`) and passes it as `cfg.iv`, but because `secretKey` is
a string passphrase, crypto-js derives the real key/iv from
(`secretKey`, random salt `saltRand`) and overwrites `cfg.iv`; the random
iv only flows into the returned `iv` field.  Randomness is passed
explicitly (`ivRand`, `saltRand`). -/
def encryptAES (plainText secretKey : Bytes) (ivRand saltRand : Bytes) : AESEncrypted :=
  let derived := evpKDF secretKey saltRand
  { encryptedData := ⟨saltRand, coreXor derived (pkcs7Pad plainText)⟩
  , iv := ivRand }

/-- `decryptAES` (encryption.js lines 53–67).  The `iv` argument is parsed
and passed as `cfg.iv`, but crypto-js overwrites it with the iv derived
from (`secretKey`, salt embedded in the ciphertext); the cipher layer never
fails, the unvalidated padding is stripped, and `toString(Utf8)` throws —
caught and rethrown as `Decryption failed: ...` — exactly on malformed
UTF-8. -/
def decryptAES (encryptedData : AESCiphertext) (iv : Bytes) (secretKey : Bytes) :
    Except String Bytes :=
  let derived := evpKDF secretKey encryptedData.salt
  let decrypted := pkcs7Unpad (coreXor derived encryptedData.ct)
  if isValidUtf8 decrypted then .ok decrypted
  else .error "Decryption failed: Malformed UTF-8 data"

/-- Ideal model of a PEM-encoded RSA public key: either well-formed key
material identified by the key pair it belongs to, or structurally invalid
(malformed PEM). -/
inductive RSAPublicKey
  | key (id : Nat)
  | malformed
deriving DecidableEq

/-- Ideal model of a PEM-encoded RSA private key. -/
inductive RSAPrivateKey
  | key (id : Nat)
  | malformed
deriving DecidableEq

/-- The `{ publicKey, privateKey }` object of `generateRSAKeyPair`. -/
structure RSAKeyPair where
  publicKey : RSAPublicKey
  privateKey : RSAPrivateKey
deriving DecidableEq

/-- `generateRSAKeyPair` (encryption.js lines 76–89): draws a fresh
2048-bit pair; the RNG draw is passed explicitly as `entropy`, and the two
halves of one draw share the same identifier. -/
def generateRSAKeyPair (entropy : Nat) : RSAKeyPair :=
  ⟨.key entropy, .key entropy⟩

/-- Ideal model of an RSA-OAEP ciphertext (base64 string in the source):
bound to the public key that produced it. -/
inductive RSACiphertext
  | mk (keyId : Nat) (data : Bytes)
deriving DecidableEq

/-- `encryptRSA` (encryption.js lines 96–103): Node `crypto.publicEncrypt`
with OAEP padding; throws (modelled as `.error`) on malformed key
material. -/
def encryptRSA (data : Bytes) (publicKey : RSAPublicKey) : Except String RSACiphertext :=
  match publicKey with
  | .key id => .ok (.mk id data)
  | .malformed => .error "RSA encryption failed: unsupported"

/-- `decryptRSA` (encryption.js lines 112–119): Node `crypto.privateDecrypt`
with OAEP padding; the OAEP integrity check makes decryption under a
non-matching private key throw, which the source catches and rethrows as
`RSA decryption failed: ...`. -/
def decryptRSA (encryptedData : RSACiphertext) (privateKey : RSAPrivateKey) :
    Except String Bytes :=
  match encryptedData, privateKey with
  | .mk id data, .key id' =>
    if id' = id then .ok data
    else .error "RSA decryption failed: oaep decoding error"
  | _, .malformed => .error "RSA decryption failed: unsupported"

/-- Hexadecimal digit characters `0`–`9`, `a`–`f`. -/
def hexDigit (d : Nat) : Char :=
  if d < 10 then Char.ofNat (48 + d) else Char.ofNat (87 + d)

/-- Render `n` as exactly `width` hex characters (most significant first,
truncating above `16 ^ width`). -/
def natToHexFixed (n width : Nat) : String :=
  ⟨((List.range width).reverse).map (fun i => hexDigit (n / 16 ^ i % 16))⟩

/-- The `{ encryptedData, encryptedKey, iv }` object of `hybridEncrypt`. -/
structure HybridEncrypted where
  encryptedData : AESCiphertext
  encryptedKey : RSACiphertext
  iv : Bytes
deriving DecidableEq

/-- `hybridEncrypt` (encryption.js lines 125–135): draws a fresh random
AES key as the 64-hex-character string `WordArray.random(32).toString()`
(the RNG draw is `keyRand`), encrypts the payload under it with
`encryptAES`, and wraps the key string with `encryptRSA`. -/
def hybridEncrypt (data : Bytes) (publicKey : RSAPublicKey)
    (keyRand : Nat) (ivRand saltRand : Bytes) : Except String HybridEncrypted :=
  let aesKey := strBytes (natToHexFixed keyRand 64)
  let enc := encryptAES data aesKey ivRand saltRand
  match encryptRSA aesKey publicKey with
  | .ok encryptedKey => .ok ⟨enc.encryptedData, encryptedKey, enc.iv⟩
  | .error e => .error ("Hybrid encryption failed: " ++ e)

/-- `hybridDecrypt` (encryption.js lines 137–144): unwraps the AES key
with `decryptRSA`, then runs `decryptAES`; the surrounding `try/catch`
rethrows whichever layer's error occurs as
`'Hybrid decryption failed: ' + error.message`. -/
def hybridDecrypt (encryptedData : AESCiphertext) (encryptedKey : RSACiphertext)
    (iv : Bytes) (privateKey : RSAPrivateKey) : Except String Bytes :=
  match decryptRSA encryptedKey privateKey with
  | .error e => .error ("Hybrid decryption failed: " ++ e)
  | .ok aesKey =>
    match decryptAES encryptedData iv aesKey with
    | .ok plain => .ok plain
    | .error e => .error ("Hybrid decryption failed: " ++ e)

/-- Ideal model of an RSA-SHA512 signature blob (base64 string in the
source): bound to the signing key and the signed data, or structurally
invalid. -/
inductive DSSignature
  | sig (keyId : Nat) (data : String)
  | malformed
deriving DecidableEq

/-- `createDigitalSignature` (encryption.js lines 150–157): Node
`crypto.sign('RSA-SHA512', data, privateKey)`. -/
def createDigitalSignature (data : String) (privateKey : RSAPrivateKey) :
    Except String DSSignature :=
  match privateKey with
  | .key id => .ok (.sig id data)
  | .malformed => .error "Digital signature creation failed: unsupported"

/-- Model of the raw Node `crypto.verify('RSA-SHA512', ...)` primitive:
throws (`.error`) on structurally invalid key or signature material, and
otherwise reports whether the signature matches the data under the key. -/
def cryptoVerify (data : String) (signature : DSSignature)
    (publicKey : RSAPublicKey) : Except String Bool :=
  match publicKey, signature with
  | .malformed, _ => .error "error:0909006C:PEM routines:get_name:no start line"
  | .key _, .malformed => .error "malformed signature"
  | .key kid, .sig sid sdata => .ok (sid == kid && sdata == data)

/-- `verifyDigitalSignature` (encryption.js lines 159–168): calls the raw
primitive inside `try/catch`; ANY error is caught, logged with
`console.error`, and turned into `return false`. -/
def verifyDigitalSignature (data : String) (signature : DSSignature)
    (publicKey : RSAPublicKey) : Bool :=
  match cryptoVerify data signature publicKey with
  | .ok b => b
  | .error _ => false

/-- Accumulated value of the SHA-512 stand-in: a deterministic fold of the
input bytes into a 512-bit number. -/
def sha512Num (bs : Bytes) : Nat :=
  let a := bs.foldl (fun acc b => (acc * 1099511628211 + b + 1) % (16 ^ 128)) 1099511628211
  (a * a + a + 1) % (16 ^ 128)

/-- Stand-in for `createHashSHA512` (encryption.js lines 174–177): Node
`crypto.createHash('sha512').update(data).digest('hex')` — deterministic,
and always a 128-hex-character string (512 bits). -/
def createHashSHA512 (data : Bytes) : String :=
  natToHexFixed (sha512Num data) 128

/-- The same SHA-512 stand-in applied to a string input (the source passes
strings, which Node hashes as their UTF-8 bytes). -/
def sha512hexOfString (s : String) : String := createHashSHA512 (strBytes s)

/-- JSON string quoting (none of the values at the call sites need escape
sequences). -/
def jsonQuote (s : String) : String := "\"" ++ s ++ "\""

/-- The argument object handed to `generateVerifiedCertificateData`; JS
object fields that may be `undefined` are modelled as `Option`. -/
structure CertApplicationData where
  id : Option String
  application_number : Option String
  applicationNumber : Option String
  student_id : Option String
deriving DecidableEq

/-- One JSON member, or nothing: `JSON.stringify` drops object fields
whose value is `undefined`. -/
def jsonMember (name : String) : Option String → List String
  | some v => [jsonQuote name ++ ":" ++ jsonQuote v]
  | none => []

/-- `Array.prototype.join(sep)`. -/
def joinSep (sep : String) : List String → String
  | [] => ""
  | [s] => s
  | s :: rest => s ++ sep ++ joinSep sep rest

/-- `JSON.stringify(payload)` for the payload object built in
`generateVerifiedCertificateData` (encoding.js lines 76–83): insertion
order `applicationId`, `applicationNumber`, `studentId`, `timestamp`;
`undefined` fields are dropped. -/
def payloadJSON (d : CertApplicationData) (timestamp : Nat) : String :=
  "\x7b" ++ joinSep ","
    (jsonMember "applicationId" d.id ++
     jsonMember "applicationNumber" d.application_number ++
     jsonMember "studentId" d.student_id ++
     [jsonQuote "timestamp" ++ ":" ++ toString timestamp]) ++ "\x7d"

/-- JS template-literal rendering of a possibly-`undefined` string. -/
def jsStr : Option String → String
  | some s => s
  | none => "undefined"

/-- `String.prototype.substring(0, n)`, on the model's strings. -/
def strTake (s : String) (n : Nat) : String := ⟨s.data.take n⟩

/-- Stand-in for `new Date(timestamp).toISOString()`: an injective
rendering of the timestamp (only ever concatenated into certificate
text). -/
def toISOStringModel (t : Nat) : String := toString t ++ "Z"

/-- `Array.prototype.join('\n')`. -/
def joinNewline (lines : List String) : String := joinSep "\n" lines

/-- The `{ verificationCode, certificateText }` object returned by
`generateVerifiedCertificateData`. -/
structure CertificateData where
  verificationCode : String
  certificateText : String
deriving DecidableEq

/-- `generateVerifiedCertificateData` (encoding.js lines 74–110):
stringifies the payload `\x7b applicationId, applicationNumber, studentId,
timestamp \x7d`, hashes it with SHA-512, truncates the hex digest to 16
characters with `.substring(0, 16)`, builds the code
`SVS-VERIFIED-<applicationNumber>-<hash16>` (note the code reads the
camelCase field `applicationNumber`, the payload the snake_case field
`application_number`), and joins the certificate lines with `\n`.
`Date.now()` is passed explicitly as `timestamp`; `FRONTEND_URL` is unset,
so the default is used. -/
def generateVerifiedCertificateData (applicationData : CertApplicationData)
    (timestamp : Nat) : CertificateData :=
  let verificationData := payloadJSON applicationData timestamp
  let verificationHash := strTake (sha512hexOfString verificationData) 16
  let verificationCode :=
    "SVS-VERIFIED-" ++ jsStr applicationData.applicationNumber ++ "-" ++ verificationHash
  let frontendUrl := "http://localhost:3000"
  let verifyUrl := frontendUrl ++ "/verify/" ++ verificationCode
  let certificateText := joinNewline
    [ "Scholarship Verification Certificate"
    , "Application: " ++ jsStr applicationData.applicationNumber
    , "Student ID: " ++ jsStr applicationData.student_id
    , "Verified At: " ++ toISOStringModel timestamp
    , "Verification Code: " ++ verificationCode
    , "Verify URL: " ++ verifyUrl ]
  ⟨verificationCode, certificateText⟩

/-- The fields of an `Application` document that the status-update and
code-lookup routes read or write (models/index.js application schema:
`verificationCode` and `verifiedVerificationCode` are single `String`
fields). -/
structure Application where
  appId : String
  applicationNumber : String
  userId : String
  status : String
  verificationCode : Option String
  verifiedVerificationCode : Option String
  verifiedCertificateText : Option String
  verifiedAt : Option Nat
  reviewedAt : Option Nat
deriving DecidableEq

/-- The `allowed` list of PUT /applications/:id/status. -/
def allowedStatuses : List String :=
  ["under_review", "verified", "approved", "rejected"]

/-- The argument object the route PUT /applications/:id/status
(routes/encoding.js lines 414–419) passes to
`generateVerifiedCertificateData`: `\x7b id, applicationNumber,
student_id \x7d` — the snake_case `application_number` field the payload
reads is absent (undefined) here. -/
def issueCertApplicationData (app : Application) : CertApplicationData :=
  { id := some app.appId
  , application_number := none
  , applicationNumber := some app.applicationNumber
  , student_id := some app.userId }

/-- PUT /applications/:id/status (routes/encoding.js lines 398–441):
validates the status, and on `verified` (always) or on `approved` with no
stored verified code, issues a fresh certificate and OVERWRITES the single
`verifiedVerificationCode` / `verifiedCertificateText` / `verifiedAt`
fields; then stores the new status. -/
def updateApplicationStatus (app : Application) (status : String) (now : Nat) :
    Except String Application :=
  if ¬ allowedStatuses.contains status then .error "Invalid status"
  else
    let app1 :=
      if status == "verified" ||
          (status == "approved" && app.verifiedVerificationCode == none) then
        let cert := generateVerifiedCertificateData (issueCertApplicationData app) now
        { app with
            verifiedVerificationCode := some cert.verificationCode
          , verifiedCertificateText := some cert.certificateText
          , verifiedAt := some now }
      else app
    .ok { app1 with status := status, reviewedAt := some now }

/-- GET /applications/verify/:code (routes/encoding.js lines 446–459):
`Application.findOne` on the `$or` of the two code fields. -/
def lookupApplicationByCode (apps : List Application) (code : String) :
    Option Application :=
  apps.find? (fun a =>
    a.verificationCode == some code || a.verifiedVerificationCode == some code)

/-- `signatureValid` / `integrityValid` as computed by both
GET /documents/:id (routes/documents.js lines 214–216) and
GET /documents/:id/verify (lines 269–271): recomputed digest must equal
the stored digest AND the stored signature must verify (against the
recomputed digest) under the owner's public key. -/
def documentSignatureValid (currentHash storedHash : String)
    (storedSignature : DSSignature) (ownerPublicKey : RSAPublicKey) : Bool :=
  currentHash == storedHash &&
    verifyDigitalSignature currentHash storedSignature ownerPublicKey

/-- `isTampered` of GET /documents/:id/verify (routes/documents.js line
290): the negation of the combined check. -/
def documentIsTampered (currentHash storedHash : String)
    (storedSignature : DSSignature) (ownerPublicKey : RSAPublicKey) : Bool :=
  ! documentSignatureValid currentHash storedHash storedSignature ownerPublicKey

/-- Fuel-based little-endian base-128 digit expansion; fuel `n` is always
sufficient for input `n` because division by 128 shrinks faster than the
fuel. -/
def base128Aux : Nat → Nat → Bytes
  | _, 0 => []
  | 0, _ + 1 => []
  | fuel + 1, n + 1 => (n + 1) % 128 :: base128Aux fuel ((n + 1) / 128)

/-- Little-endian base-128 digits of a natural number; used to render the
ideal private key as an ASCII (hence valid-UTF-8) PEM body. -/
def base128 (n : Nat) : Bytes := base128Aux n n

/-- Model of the PEM text of an ideal private key (an ASCII string
determined by the key). -/
def privateKeyPem : RSAPrivateKey → Bytes
  | .key id => base128 id
  | .malformed => []

/-- The process-wide `AES_SECRET` passphrase (`.env` is absent, so the
default applies). -/
def aesSecret : Bytes := strBytes "default_32_char_secret_key_here!"

/-- The stored `privateKey` field: the JSON `\x7b data, iv \x7d` of the
AES-encrypted PEM. -/
structure StoredPrivateKey where
  data : AESCiphertext
  iv : Bytes
deriving DecidableEq

/-- The key-material fields of a `User` document. -/
structure UserRec where
  publicKey : Option RSAPublicKey
  privateKey : Option StoredPrivateKey
deriving DecidableEq

/-- The user record written by the generation branch of `ensureUserKeys`. -/
def generatedUserRec (entropy : Nat) (ivRand saltRand : Bytes) : UserRec :=
  let kp := generateRSAKeyPair entropy
  let enc := encryptAES (privateKeyPem kp.privateKey) aesSecret ivRand saltRand
  { publicKey := some kp.publicKey
  , privateKey := some ⟨enc.encryptedData, enc.iv⟩ }

/-- `ensureUserKeys` (routes/documents.js lines 40–51 and
routes/encoding.js lines 80–91, identical): if both key fields are
present, return the user unchanged; otherwise generate a pair, encrypt
the private key under `AES_SECRET`, store both fields and save.  RNG
draws are explicit (`entropy`, `ivRand`, `saltRand`). -/
def ensureUserKeys (user : UserRec) (entropy : Nat) (ivRand saltRand : Bytes) :
    UserRec :=
  match user.publicKey, user.privateKey with
  | some _, some _ => user
  | _, _ => generatedUserRec entropy ivRand saltRand

/-- The per-call random draws of two concurrent `ensureUserKeys` calls. -/
structure KVParams where
  e0 : Nat
  iv0 : Bytes
  salt0 : Bytes
  e1 : Nat
  iv1 : Bytes
  salt1 : Bytes

/-- Interleaving state of two concurrent `ensureUserKeys` calls on one
shared stored user document: `stored` is the persisted record, `pending`
a generated record not yet saved, `result` what each caller returned. -/
structure KVState where
  stored : UserRec
  pending0 : Option UserRec
  pending1 : Option UserRec
  result0 : Option UserRec
  result1 : Option UserRec
deriving DecidableEq

/-- Atomic events of the interleaved execution: each `ensureUserKeys`
call is the sequence `check i` (read the stored user; return it if keys
are present, otherwise generate a record to be saved) followed by
`save i` (`await user.save()`). -/
inductive KVEvent
  | check0
  | check1
  | save0
  | save1

/-- One interleaving step. -/
def kvStep (p : KVParams) (s : KVState) : KVEvent → KVState
  | .check0 =>
    match s.stored.publicKey, s.stored.privateKey with
    | some _, some _ => { s with result0 := some s.stored }
    | _, _ => { s with pending0 := some (generatedUserRec p.e0 p.iv0 p.salt0) }
  | .check1 =>
    match s.stored.publicKey, s.stored.privateKey with
    | some _, some _ => { s with result1 := some s.stored }
    | _, _ => { s with pending1 := some (generatedUserRec p.e1 p.iv1 p.salt1) }
  | .save0 =>
    match s.pending0 with
    | some r => { s with stored := r, result0 := some r, pending0 := none }
    | none => s
  | .save1 =>
    match s.pending1 with
    | some r => { s with stored := r, result1 := some r, pending1 := none }
    | none => s

/-- Initial interleaving state over a stored user record. -/
def kvInit (user : UserRec) : KVState := ⟨user, none, none, none, none⟩

/-- Run a schedule of interleaving events. -/
def kvRun (p : KVParams) (user : UserRec) (events : List KVEvent) : KVState :=
  events.foldl (kvStep p) (kvInit user)

/-- Hex-digit characters as used by a hex digest. -/
def isHexChar (c : Char) : Bool :=
  (('0' ≤ c) && (c ≤ '9')) || (('a' ≤ c) && (c ≤ 'f'))

/-- The 16-character hash suffix of an issued verification code. -/
def certSuffix (d : CertApplicationData) (timestamp : Nat) : String :=
  strTake (sha512hexOfString (payloadJSON d timestamp)) 16

/-- The message of the inner (layer) error inside a failed
`hybridDecrypt` call. -/
def hybridInnerError (encryptedData : AESCiphertext) (encryptedKey : RSACiphertext)
    (iv : Bytes) (privateKey : RSAPrivateKey) : String :=
  match decryptRSA encryptedKey privateKey with
  | .error m => m
  | .ok aesKey =>
    match decryptAES encryptedData iv aesKey with
    | .error m => m
    | .ok _ => ""

/-- Concrete hybrid encryption of the empty payload under key pair 0. -/
def c1enc : HybridEncrypted :=
  (hybridEncrypt [] (generateRSAKeyPair 0).publicKey 0 [] []).toOption.getD
    ⟨⟨[], []⟩, .mk 0 [], []⟩

/-- Concrete random draws for two interleaved `ensureUserKeys` calls. -/
def c4params : KVParams := ⟨0, [], [], 1, [], []⟩

/-- The interleaved run check0–check1–save0–save1 on an initially
keyless user. -/
def c4run : KVState :=
  kvRun c4params ⟨none, none⟩ [.check0, .check1, .save0, .save1]

/-- The same run stopped just after the first save. -/
def c4mid : KVState :=
  kvRun c4params ⟨none, none⟩ [.check0, .check1, .save0]

/-- A user document that already holds key material. -/
def c4user : UserRec := ⟨some (.key 3), some ⟨⟨[], []⟩, []⟩⟩

/-- A concrete application before any verification. -/
def c9app0 : Application :=
  ⟨"A1", "APP2026-ABCXYZ", "U1", "under_review", none, none, none, none, none⟩

/-- The application after a first PUT status=verified at t=1000. -/
def c9app1 : Application :=
  (updateApplicationStatus c9app0 "verified" 1000).toOption.getD c9app0

/-- The verification code issued by the first verification. -/
def c9code1 : String := c9app1.verifiedVerificationCode.getD ""

/-- The application after a second PUT status=verified at t=2000. -/
def c9app2 : Application :=
  (updateApplicationStatus c9app1 "verified" 2000).toOption.getD c9app1

/-- Sanity: a call run without interleaving (its check immediately
followed by its save) is exactly the sequential `ensureUserKeys`. -/
theorem kvRun_atomic (p : KVParams) (user : UserRec) :
    (kvRun p user [.check0, .save0]).stored = ensureUserKeys user p.e0 p.iv0 p.salt0 := by
  cases user with
  | mk pub priv => cases pub <;> cases priv <;> rfl

theorem coreXorAux_involutive (key : Bytes) (bs : Bytes) :
    ∀ i, coreXorAux key i (coreXorAux key i bs) = bs := by
  induction bs with
  | nil => intro i; rfl
  | cons b bs ih =>
    intro i
    simp only [coreXorAux, Nat.xor_cancel_right, ih]

theorem coreXor_involutive (key : Bytes) (bs : Bytes) :
    coreXor key (coreXor key bs) = bs :=
  coreXorAux_involutive key bs 0

theorem pkcs7Unpad_pkcs7Pad (bs : Bytes) : pkcs7Unpad (pkcs7Pad bs) = bs := by
  have hlt : bs.length % 16 < 16 := Nat.mod_lt _ (by omega)
  have hpos : 0 < 16 - bs.length % 16 := by omega
  unfold pkcs7Pad pkcs7Unpad
  simp only [List.getLast?_append, List.getLast?_replicate]
  rw [if_neg (by omega)]
  simp only [Option.or_some, Option.getD_some, List.length_append,
    List.length_replicate]
  have : bs.length + (16 - bs.length % 16) - (16 - bs.length % 16) = bs.length := by
    omega
  rw [this, List.take_left]

/-- AES round-trip under the correct passphrase, for an arbitrary `iv`
argument to `decryptAES`: the derived key depends only on the passphrase
and the salt embedded in the ciphertext. -/
theorem decryptAES_encryptAES (plainText secretKey ivRand saltRand iv : Bytes)
    (hval : isValidUtf8 plainText = true) :
    decryptAES (encryptAES plainText secretKey ivRand saltRand).encryptedData
      iv secretKey = .ok plainText := by
  unfold decryptAES encryptAES
  simp only [coreXor_involutive, pkcs7Unpad_pkcs7Pad, hval, if_true]

theorem isValidUtf8Aux_of_ascii : ∀ (fuel : Nat) (bs : Bytes),
    bs.length ≤ fuel → (∀ b ∈ bs, b ≤ 0x7F) → isValidUtf8Aux fuel bs = true := by
  intro fuel
  induction fuel with
  | zero =>
    intro bs hlen _
    cases bs with
    | nil => rfl
    | cons b rest => simp at hlen
  | succ n ih =>
    intro bs hlen h
    cases bs with
    | nil => rfl
    | cons b rest =>
      have hb : b ≤ 0x7F := h b (List.mem_cons_self _ _)
      have hhead : utf8HeadLen (b :: rest) = some 1 := by
        simp [utf8HeadLen, byteAt, hb]
      simp only [isValidUtf8Aux, hhead, List.drop_zero]
      exact ih rest (by simpa using hlen) (fun x hx => h x (List.mem_cons_of_mem _ hx))

theorem isValidUtf8_of_ascii (bs : Bytes) (h : ∀ b ∈ bs, b ≤ 0x7F) :
    isValidUtf8 bs = true :=
  isValidUtf8Aux_of_ascii bs.length bs (Nat.le_refl _) h

theorem base128Aux_le : ∀ (fuel n : Nat), ∀ b ∈ base128Aux fuel n, b ≤ 0x7F := by
  intro fuel
  induction fuel with
  | zero =>
    intro n b hb
    cases n <;> simp [base128Aux] at hb
  | succ f ih =>
    intro n b hb
    cases n with
    | zero => simp [base128Aux] at hb
    | succ m =>
      rw [base128Aux] at hb
      rcases List.mem_cons.mp hb with h | h
      · have : (m + 1) % 128 < 128 := Nat.mod_lt _ (by omega)
        omega
      · exact ih _ b h

theorem base128_le (n : Nat) : ∀ b ∈ base128 n, b ≤ 0x7F :=
  base128Aux_le n n

theorem isValidUtf8_privateKeyPem (k : RSAPrivateKey) :
    isValidUtf8 (privateKeyPem k) = true := by
  cases k with
  | key id => exact isValidUtf8_of_ascii _ (base128_le id)
  | malformed => rfl

/-- C1: for every payload string P, including the empty string, and every
RSA key pair produced by `generateRSAKeyPair`, `hybridDecrypt` applied to
the `(encryptedData, encryptedKey, iv)` triple returned by
`hybridEncrypt(P, publicKey)`, using the matching `privateKey`, returns
exactly P. -/
theorem C1_hybrid_roundtrip (P : Bytes) (entropy keyRand : Nat)
    (ivRand saltRand : Bytes) (enc : HybridEncrypted)
    (hval : isValidUtf8 P = true)
    (henc : hybridEncrypt P (generateRSAKeyPair entropy).publicKey keyRand ivRand
      saltRand = .ok enc) :
    hybridDecrypt enc.encryptedData enc.encryptedKey enc.iv
      (generateRSAKeyPair entropy).privateKey = .ok P := by
  simp only [hybridEncrypt, generateRSAKeyPair, encryptRSA] at henc
  injection henc with henc
  subst henc
  have hrsa : decryptRSA
      (RSACiphertext.mk entropy (strBytes (natToHexFixed keyRand 64)))
      (RSAPrivateKey.key entropy) =
      .ok (strBytes (natToHexFixed keyRand 64)) := by
    simp [decryptRSA]
  simp only [hybridDecrypt, generateRSAKeyPair, hrsa]
  rw [decryptAES_encryptAES _ _ _ _ _ hval]

/-- Witness for C1 at the empty payload. -/
theorem C1_hybrid_roundtrip_witness :
    hybridDecrypt c1enc.encryptedData c1enc.encryptedKey c1enc.iv
      (generateRSAKeyPair 0).privateKey = .ok [] :=
  C1_hybrid_roundtrip [] 0 0 [] [] c1enc rfl rfl

/-- C10: the iv values produced and consumed by the symmetric layer are
inert — for every plaintext, every passphrase, and EVERY iv argument
(not just the iv returned by `encryptAES`), decryption recovers the
plaintext, and the random per-call iv never influences the ciphertext. -/
theorem C10_iv_inert (p secretKey ivRand saltRand iv1 iv2 : Bytes)
    (hval : isValidUtf8 p = true) :
    decryptAES (encryptAES p secretKey ivRand saltRand).encryptedData iv1
      secretKey = .ok p ∧
    (encryptAES p secretKey iv1 saltRand).encryptedData =
      (encryptAES p secretKey iv2 saltRand).encryptedData :=
  ⟨decryptAES_encryptAES p secretKey ivRand saltRand iv1 hval, rfl⟩

/-- Witness for C10: a concrete encryption decrypted under an unrelated
iv argument. -/
theorem C10_iv_inert_witness :
    decryptAES (encryptAES [104, 105] [107] [255, 255] [9]).encryptedData
      [1, 2, 3] [107] = .ok [104, 105] :=
  (C10_iv_inert [104, 105] [107] [255, 255] [9] [1, 2, 3] [] rfl).1

/-- C5 counterexample: decryption of a valid encryption of `"A"` (byte 65)
under a WRONG passphrase silently returns the garbage one-byte string
`"B"` (byte 66) — neither the original plaintext nor a `DecryptionFailed`
error.  crypto-js strips the PKCS#7 padding without validating it and the
resulting byte happens to be valid UTF-8. -/
theorem C5_counterexample :
    decryptAES (encryptAES [65] [1] [] [0, 0, 0, 0, 0, 0, 0, 0]).encryptedData
      [] [2] = .ok [66] ∧ ([66] : Bytes) ≠ [65] := by
  exact ⟨rfl, by decide⟩

/-- C5 (amended): `decryptAES` returns the original plaintext when given
the key that encrypted it; under a wrong key it either fails with a
`DecryptionFailed` error or may silently return a garbage (possibly
empty) string — the code performs no padding validation or integrity
check, so wrong-key detection is NOT guaranteed. -/
theorem C5_decrypt_correct_key (plainText secretKey ivRand saltRand : Bytes)
    (hval : isValidUtf8 plainText = true) :
    decryptAES (encryptAES plainText secretKey ivRand saltRand).encryptedData
      (encryptAES plainText secretKey ivRand saltRand).iv secretKey =
      .ok plainText :=
  decryptAES_encryptAES plainText secretKey ivRand saltRand _ hval

/-- Witness for the amended C5 at a concrete plaintext and key. -/
theorem C5_decrypt_correct_key_witness :
    decryptAES (encryptAES [65] [1] [7] [5]).encryptedData
      (encryptAES [65] [1] [7] [5]).iv [1] = .ok [65] :=
  C5_decrypt_correct_key [65] [1] [7] [5] rfl

/-- C3: decrypting a hybrid ciphertext produced under U1's public key with
U2's private key (distinct key pairs) fails with the hybrid decryption
error rather than returning any payload. -/
theorem C3_key_isolation (P : Bytes) (e1 e2 keyRand : Nat)
    (ivRand saltRand : Bytes) (enc : HybridEncrypted) (hne : e1 ≠ e2)
    (henc : hybridEncrypt P (generateRSAKeyPair e1).publicKey keyRand ivRand
      saltRand = .ok enc) :
    hybridDecrypt enc.encryptedData enc.encryptedKey enc.iv
      (generateRSAKeyPair e2).privateKey =
      .error "Hybrid decryption failed: RSA decryption failed: oaep decoding error" := by
  simp only [hybridEncrypt, generateRSAKeyPair, encryptRSA] at henc
  injection henc with henc
  subst henc
  have hne2 : ¬(e2 = e1) := fun h => hne (Eq.symm h)
  have hrsa : decryptRSA
      (RSACiphertext.mk e1 (strBytes (natToHexFixed keyRand 64)))
      (RSAPrivateKey.key e2) =
      .error "RSA decryption failed: oaep decoding error" := by
    simp only [decryptRSA, if_neg hne2]
  simp only [hybridDecrypt, generateRSAKeyPair, hrsa]
  rfl

/-- Witness for C3 at two concrete distinct key pairs. -/
theorem C3_key_isolation_witness :
    hybridDecrypt c1enc.encryptedData c1enc.encryptedKey c1enc.iv
      (generateRSAKeyPair 1).privateKey =
      .error "Hybrid decryption failed: RSA decryption failed: oaep decoding error" :=
  C3_key_isolation [] 0 1 0 [] [] c1enc (by decide) rfl

/-- C7 counterexample: two inputs on which different layers fail — the
RSA key-unwrap layer on the first, the AES payload layer on the second —
surface DIFFERENT error messages to the caller, because the catch block
rethrows `'Hybrid decryption failed: ' + error.message` and the inner
message names the failing layer. -/
theorem C7_counterexample :
    hybridDecrypt ⟨[], []⟩ (.mk 0 []) [] (.key 1) =
      .error "Hybrid decryption failed: RSA decryption failed: oaep decoding error" ∧
    hybridDecrypt ⟨[], [195, 1]⟩ (.mk 0 []) [] (.key 0) =
      .error "Hybrid decryption failed: Decryption failed: Malformed UTF-8 data" ∧
    ("Hybrid decryption failed: RSA decryption failed: oaep decoding error" : String) ≠
      "Hybrid decryption failed: Decryption failed: Malformed UTF-8 data" := by
  refine ⟨rfl, rfl, by decide⟩

/-- C7 (amended): every failed hybrid decryption is surfaced as an error
whose message starts with the generic `Hybrid decryption failed: `, but
the remainder of the message is the failing layer's own message, so the
error content DOES distinguish which layer failed. -/
theorem C7_generic_failure_with_layer_message (encryptedData : AESCiphertext)
    (encryptedKey : RSACiphertext) (iv : Bytes) (privateKey : RSAPrivateKey)
    (e : String)
    (h : hybridDecrypt encryptedData encryptedKey iv privateKey = .error e) :
    e = "Hybrid decryption failed: " ++
      hybridInnerError encryptedData encryptedKey iv privateKey := by
  cases hr : decryptRSA encryptedKey privateKey with
  | error msg =>
    have hi : hybridInnerError encryptedData encryptedKey iv privateKey = msg := by
      simp only [hybridInnerError, hr]
    have hd : hybridDecrypt encryptedData encryptedKey iv privateKey =
        .error ("Hybrid decryption failed: " ++ msg) := by
      simp only [hybridDecrypt, hr]
    rw [hd] at h
    injection h with h
    rw [hi]
    exact h.symm
  | ok aesKey =>
    cases ha : decryptAES encryptedData iv aesKey with
    | ok p =>
      have hd : hybridDecrypt encryptedData encryptedKey iv privateKey = .ok p := by
        simp only [hybridDecrypt, hr, ha]
      rw [hd] at h
      simp at h
    | error msg =>
      have hi : hybridInnerError encryptedData encryptedKey iv privateKey = msg := by
        simp only [hybridInnerError, hr, ha]
      have hd : hybridDecrypt encryptedData encryptedKey iv privateKey =
          .error ("Hybrid decryption failed: " ++ msg) := by
        simp only [hybridDecrypt, hr, ha]
      rw [hd] at h
      injection h with h
      rw [hi]
      exact h.symm

/-- Witness for the amended C7 at a concrete failing input. -/
theorem C7_generic_failure_witness :
    ("Hybrid decryption failed: RSA decryption failed: oaep decoding error" : String) =
      "Hybrid decryption failed: " ++ hybridInnerError ⟨[], []⟩ (.mk 0 []) [] (.key 1) :=
  C7_generic_failure_with_layer_message ⟨[], []⟩ (.mk 0 []) [] (.key 1) _ rfl

/-- C6 counterexample: on a structurally invalid input (a malformed
public key), the raw Node verify primitive throws — yet
`verifyDigitalSignature` does NOT raise: the catch-all swallows the error
and returns `false`, so the function does not raise exactly on
structurally invalid inputs (it never raises at all). -/
theorem C6_counterexample :
    cryptoVerify "data" (.sig 0 "data") .malformed =
      .error "error:0909006C:PEM routines:get_name:no start line" ∧
    verifyDigitalSignature "data" (.sig 0 "data") .malformed = false :=
  ⟨rfl, rfl⟩

/-- C6 (amended): `verifyDigitalSignature` never throws on ANY input —
it returns `true` exactly when the raw primitive affirms the signature,
and returns `false` both on a mismatched signature and on structurally
invalid inputs (whose error is caught and logged). -/
theorem C6_verify_total (data : String) (signature : DSSignature)
    (publicKey : RSAPublicKey) :
    (verifyDigitalSignature data signature publicKey = true ↔
      cryptoVerify data signature publicKey = .ok true) ∧
    (cryptoVerify data signature publicKey = .ok false →
      verifyDigitalSignature data signature publicKey = false) ∧
    (∀ e, cryptoVerify data signature publicKey = .error e →
      verifyDigitalSignature data signature publicKey = false) := by
  unfold verifyDigitalSignature
  refine ⟨?_, ?_, ?_⟩
  · cases hc : cryptoVerify data signature publicKey with
    | ok b =>
      cases b with
      | true => simp
      | false => simp
    | error m => simp
  · intro h; rw [h]
  · intro e h; rw [h]

/-- Witness for the amended C6: a matching signature verifies. -/
theorem C6_verify_total_witness :
    verifyDigitalSignature "d" (.sig 0 "d") (.key 0) = true :=
  (C6_verify_total "d" (.sig 0 "d") (.key 0)).1.mpr rfl

/-- C2: the integrity check of the document routes reports tampered
exactly when NOT(recomputed digest equals stored digest AND stored
signature verifies under the owner's public key); each failing check
independently forces the tampered outcome, and only both passing yields
non-tampered. -/
theorem C2_tampered_iff (currentHash storedHash : String)
    (storedSignature : DSSignature) (ownerPublicKey : RSAPublicKey) :
    (documentIsTampered currentHash storedHash storedSignature ownerPublicKey = true ↔
      ¬(currentHash = storedHash ∧
        verifyDigitalSignature currentHash storedSignature ownerPublicKey = true)) ∧
    (currentHash ≠ storedHash →
      documentIsTampered currentHash storedHash storedSignature ownerPublicKey = true) ∧
    (verifyDigitalSignature currentHash storedSignature ownerPublicKey = false →
      documentIsTampered currentHash storedHash storedSignature ownerPublicKey = true) ∧
    (documentIsTampered currentHash storedHash storedSignature ownerPublicKey = false ↔
      (currentHash = storedHash ∧
        verifyDigitalSignature currentHash storedSignature ownerPublicKey = true)) := by
  unfold documentIsTampered documentSignatureValid
  by_cases hcs : currentHash = storedHash <;>
    cases hv : verifyDigitalSignature currentHash storedSignature ownerPublicKey <;>
      simp [hcs, hv]

/-- Witness for C2: a digest mismatch alone already yields tampered. -/
theorem C2_tampered_iff_witness :
    documentIsTampered "aa" "bb" (.sig 0 "aa") (.key 0) = true :=
  (C2_tampered_iff "aa" "bb" (.sig 0 "aa") (.key 0)).2.1 (by decide)

theorem isHexChar_hexDigit (d : Nat) (hd : d < 16) : isHexChar (hexDigit d) = true := by
  interval_cases d <;> decide

/-- Every character of the hash suffix is a hex digit. -/
theorem certSuffix_chars (d : CertApplicationData) (timestamp : Nat) :
    ∀ c ∈ (certSuffix d timestamp).data, isHexChar c = true := by
  intro c hc
  simp only [certSuffix, strTake, sha512hexOfString, createHashSHA512,
    natToHexFixed] at hc
  have hc2 := List.mem_of_mem_take hc
  rcases List.mem_map.mp hc2 with ⟨i, _, rfl⟩
  exact isHexChar_hexDigit _ (Nat.mod_lt _ (by omega))

/-- C4 counterexample: two interleaved first-time `ensureUserKeys` calls
for the same user (both checks before either save) each generate and
persist a key pair; the second save silently overwrites the pair the
first save had already persisted, and caller 0 is left holding a public
key inconsistent with the finally persisted private key — the code has no
lock or compare-and-swap. -/
theorem C4_counterexample :
    c4mid.stored = generatedUserRec 0 [] [] ∧
    c4run.stored = generatedUserRec 1 [] [] ∧
    c4run.result0 = some (generatedUserRec 0 [] []) ∧
    generatedUserRec 0 [] [] ≠ generatedUserRec 1 [] [] := by
  refine ⟨rfl, rfl, rfl, by decide⟩

/-- C4 (amended): `ensureUserKeys` is idempotent for sequential calls —
with key material present it returns the stored user unchanged, and
otherwise it generates and persists exactly one pair whose stored
encrypted private key decrypts (under the process secret) back to the
private key matching the returned public key; however, unsynchronized
CONCURRENT first-time calls can each persist a pair, the later save
silently overwriting the earlier one. -/
theorem C4_sequential_idempotent :
    (∀ (user : UserRec) (e : Nat) (ivR saltR : Bytes) (pk : RSAPublicKey)
      (sk : StoredPrivateKey), user.publicKey = some pk → user.privateKey = some sk →
      ensureUserKeys user e ivR saltR = user) ∧
    (∀ (user : UserRec) (e : Nat) (ivR saltR : Bytes),
      user.publicKey = none ∨ user.privateKey = none →
      ensureUserKeys user e ivR saltR = generatedUserRec e ivR saltR) ∧
    (∀ (e : Nat) (ivR saltR : Bytes),
      (generatedUserRec e ivR saltR).publicKey = some (generateRSAKeyPair e).publicKey ∧
      (generatedUserRec e ivR saltR).privateKey.map
        (fun st => decryptAES st.data st.iv aesSecret) =
        some (.ok (privateKeyPem (generateRSAKeyPair e).privateKey))) := by
  refine ⟨?_, ?_, ?_⟩
  · intro user e ivR saltR pk sk hpk hsk
    unfold ensureUserKeys
    rw [hpk, hsk]
  · intro user e ivR saltR h
    unfold ensureUserKeys
    rcases h with h | h
    · rw [h]
    · rw [h]
      cases user.publicKey <;> rfl
  · intro e ivR saltR
    refine ⟨rfl, ?_⟩
    simp only [generatedUserRec, Option.map_some']
    rw [decryptAES_encryptAES _ _ _ _ _ (isValidUtf8_privateKeyPem _)]

/-- Witness for the amended C4: a user that already has keys is returned
unchanged. -/
theorem C4_sequential_idempotent_witness :
    ensureUserKeys c4user 5 [] [] = c4user :=
  C4_sequential_idempotent.1 c4user 5 [] [] (.key 3) ⟨⟨[], []⟩, []⟩ rfl rfl

/-- C8: issuing a verification certificate hashes the JSON record of
exactly (application id, student id, timestamp) — the route passes the
camelCase `applicationNumber`, so the snake_case `application_number`
field the payload reads is `undefined` and `JSON.stringify` drops it —
with a 512-bit (128-hex-digit) hash truncated to a 16-hex-character
suffix, and returns the code `SVS-VERIFIED-<applicationNumber>-<suffix>`,
with that same suffix embedded in the returned certificate text. -/
theorem C8_certificate_shape (app : Application) (now : Nat) :
    payloadJSON (issueCertApplicationData app) now =
      "\x7b\"applicationId\":" ++ jsonQuote app.appId ++
      ",\"studentId\":" ++ jsonQuote app.userId ++
      ",\"timestamp\":" ++ toString now ++ "\x7d" ∧
    (generateVerifiedCertificateData (issueCertApplicationData app) now).verificationCode =
      "SVS-VERIFIED-" ++ app.applicationNumber ++ "-" ++
        certSuffix (issueCertApplicationData app) now ∧
    (certSuffix (issueCertApplicationData app) now).length = 16 ∧
    (∀ c ∈ (certSuffix (issueCertApplicationData app) now).data, isHexChar c = true) ∧
    ∃ pre post,
      (generateVerifiedCertificateData (issueCertApplicationData app) now).certificateText =
        pre ++ (certSuffix (issueCertApplicationData app) now ++ post) := by
  refine ⟨?_, rfl, ?_, certSuffix_chars _ _,
    "Scholarship Verification Certificate\nApplication: " ++ app.applicationNumber ++
      "\nStudent ID: " ++ app.userId ++ "\nVerified At: " ++ toISOStringModel now ++
      "\nVerification Code: SVS-VERIFIED-" ++ app.applicationNumber ++ "-",
    "\nVerify URL: http://localhost:3000/verify/SVS-VERIFIED-" ++
      app.applicationNumber ++ "-" ++ certSuffix (issueCertApplicationData app) now,
    ?_⟩
  · simp only [payloadJSON, issueCertApplicationData, jsonMember, jsonQuote,
      joinSep, List.append, String.append_assoc]
    rfl
  · simp only [certSuffix, strTake, sha512hexOfString, createHashSHA512,
      natToHexFixed, String.length, List.length_take, List.length_map,
      List.length_reverse, List.length_range]
    rfl
  · simp only [generateVerifiedCertificateData, issueCertApplicationData,
      joinNewline, joinSep, jsStr, certSuffix, String.append_assoc]
    rfl

/-- Witness for C8: concrete suffix length at a concrete application. -/
theorem C8_certificate_shape_witness :
    (certSuffix (issueCertApplicationData c9app0) 1000).length = 16 :=
  (C8_certificate_shape c9app0 1000).2.2.1

set_option maxRecDepth 16384 in
/-- C9 counterexample: verify an application at t=1000 (issuing code
`c9code1`), then re-verify it at t=2000 (issuing a different code).  The
single `verifiedVerificationCode` field is overwritten, and a lookup of
the previously issued `c9code1` now returns nothing — the old code does
NOT remain valid for historical lookups. -/
theorem C9_counterexample :
    updateApplicationStatus c9app0 "verified" 1000 = .ok c9app1 ∧
    c9app1.verifiedVerificationCode = some c9code1 ∧
    updateApplicationStatus c9app1 "verified" 2000 = .ok c9app2 ∧
    c9app2.verifiedVerificationCode ≠ some c9code1 ∧
    lookupApplicationByCode [c9app2] c9code1 = none := by
  refine ⟨rfl, rfl, rfl, by decide, by decide⟩

/-- C9 (amended): each (re-)verification REPLACES the stored code: after
a successful status update to `verified`, the stored
`verifiedVerificationCode` is exactly the newly issued code, and a lookup
for any code matching neither the submission-time `verificationCode` nor
the newly stored code returns NotFound — only the most recently issued
code (and the separate submission code) resolves. -/
theorem lookupApplicationByCode_single_none (a : Application) (c : String)
    (h1 : a.verificationCode ≠ some c) (h2 : a.verifiedVerificationCode ≠ some c) :
    lookupApplicationByCode [a] c = none := by
  have e1 : (a.verificationCode == some c) = false := beq_eq_false_iff_ne.mpr h1
  have e2 : (a.verifiedVerificationCode == some c) = false :=
    beq_eq_false_iff_ne.mpr h2
  simp [lookupApplicationByCode, List.find?, e1, e2]

/-- C9 (amended): each (re-)verification REPLACES the stored code: after
a successful status update to `verified`, the stored
`verifiedVerificationCode` is exactly the newly issued code, and a lookup
for any code matching neither the submission-time `verificationCode` nor
the newly stored code returns NotFound — only the most recently issued
code (and the separate submission code) resolves. -/
theorem C9_latest_code_only (app app2 : Application) (now : Nat) (c : String)
    (h : updateApplicationStatus app "verified" now = .ok app2) :
    app2.verifiedVerificationCode =
      some (generateVerifiedCertificateData (issueCertApplicationData app) now).verificationCode ∧
    (app2.verificationCode ≠ some c → app2.verifiedVerificationCode ≠ some c →
      lookupApplicationByCode [app2] c = none) := by
  refine ⟨?_, fun h1 h2 => lookupApplicationByCode_single_none app2 c h1 h2⟩
  injection h with h
  subst h
  rfl

set_option maxRecDepth 16384 in
/-- Witness for the amended C9 at a concrete re-verified application. -/
theorem C9_latest_code_only_witness :
    lookupApplicationByCode [c9app2] "SVS-SOME-OTHER-CODE" = none :=
  (C9_latest_code_only c9app1 c9app2 2000 "SVS-SOME-OTHER-CODE" rfl).2
    (by decide) (by decide)

end TrustScholar
